import Mathlib

/-!
Verification of the results aggregation and presentation pipeline of the
trading-dashboard frontend (trading-mvp).

The definitions below are a shallow embedding of the TypeScript source:

* src/frontend/src/hooks/useApi.ts          (request lifecycle controller)
* src/frontend/src/services/apiService.ts   (handleApiError)
* src/frontend/src/components/SummaryMetrics.tsx
* src/frontend/src/components/TradesTable.tsx (TradesTable and PerformanceChart)
* the ResultsPanel component

JavaScript numbers are modelled as exact rationals extended with the three
non-finite values NaN, Infinity and -Infinity (signed zero is not modelled;
none of the embedded computations distinguishes 0 from -0).  React state
updates of the form setState(prev => f prev) are modelled as events applied
in dispatch order to an explicit state record.  Date parsing
(new Date(s).getTime()) is kept abstract as a parameter g : String -> Rat,
since its value is supplied by the JS runtime; every theorem about the trade
sort quantifies over g.
-/

/-- Reactive state kept by the useApi hook: data, loading, error. -/
structure ApiState (α : Type) where
  data : Option α
  loading : Bool
  error : Option String
deriving DecidableEq

/-- State updates performed by the useApi hook, in the order React applies
them.  An execute call contributes a start event when it is invoked and a
resolve or reject event when its promise settles; reset is the reset()
callback. -/
inductive ApiEvent (α : Type) where
  | start
  | resolve (result : α)
  | reject (message : String)
  | reset
deriving DecidableEq

/-- The setState updater each event performs in useApi.ts:
start:   setState(prev => (..prev, loading: true, error: null))
resolve: setState(prev => (..prev, data: result, loading: false))
reject:  setState(prev => (..prev, error: message, loading: false))
reset:   setState((data: null, loading: false, error: null)). -/
def applyEvent {α : Type} (s : ApiState α) : ApiEvent α → ApiState α
  | ApiEvent.start => { s with loading := true, error := none }
  | ApiEvent.resolve r => { s with data := some r, loading := false }
  | ApiEvent.reject m => { s with error := some m, loading := false }
  | ApiEvent.reset => { data := none, loading := false, error := none }

/-- Apply a sequence of state updates in dispatch order. -/
def applyTrace {α : Type} (s : ApiState α) (es : List (ApiEvent α)) : ApiState α :=
  es.foldl applyEvent s

/-- The initial useState value: (data: null, loading: false, error: null). -/
def initialApiState {α : Type} : ApiState α :=
  { data := none, loading := false, error := none }

/-- An axios response as far as the embedded error handling reads it:
its HTTP status and the optional structured detail field of its body. -/
structure AxiosResponse where
  status : Nat
  detail : Option String
deriving DecidableEq

/-- A thrown/rejected JavaScript value as classified by the source:
an AxiosError (whose response is absent for network-level failures),
a plain Error, or a non-Error throw. -/
inductive JsThrown where
  | axiosErr (response : Option AxiosResponse) (message : String)
  | jsErr (message : String)
  | nonError
deriving DecidableEq

/-- JavaScript a || b for a string a that may be absent: undefined, null and
the empty string are falsy, so they fall through to b. -/
def orFalsy (a : Option String) (b : String) : String :=
  match a with
  | some s => if s = "" then b else s
  | none => b

/-- Error-to-string conversion inside useApi.execute (useApi.ts lines 34-43):
error.response?.data?.detail || error.message for an AxiosError,
error.message for a plain Error, and a fixed string otherwise. -/
def executeErrorMessage : JsThrown → String
  | JsThrown.axiosErr resp msg => orFalsy (resp.bind (fun r => r.detail)) msg
  | JsThrown.jsErr msg => msg
  | JsThrown.nonError => "An unknown error occurred"

/-- ERROR_MESSAGES.NETWORK from utils/constants. -/
def ERROR_NETWORK : String := "Network error. Please check your connection."

/-- ERROR_MESSAGES.VALIDATION_ERROR from utils/constants. -/
def ERROR_VALIDATION : String := "Please check your input and try again."

/-- ERROR_MESSAGES.UNAUTHORIZED from utils/constants. -/
def ERROR_UNAUTHORIZED : String := "Authentication required. Please log in."

/-- ERROR_MESSAGES.FORBIDDEN from utils/constants. -/
def ERROR_FORBIDDEN : String := "Access denied. Insufficient permissions."

/-- ERROR_MESSAGES.NOT_FOUND from utils/constants. -/
def ERROR_NOT_FOUND : String := "Requested resource not found."

/-- ERROR_MESSAGES.SERVER_ERROR from utils/constants. -/
def ERROR_SERVER : String := "Server error. Please try again later."

/-- ERROR_MESSAGES.UNKNOWN from utils/constants. -/
def ERROR_UNKNOWN : String := "An unknown error occurred."

/-- handleApiError from apiService.ts lines 45-67: switch on
error.response?.status, with the undefined case (no response) mapped to the
stable network message. -/
def handleApiError : JsThrown → String
  | JsThrown.axiosErr resp _ =>
      match resp with
      | none => ERROR_NETWORK
      | some r =>
          if r.status = 400 then orFalsy r.detail ERROR_VALIDATION
          else if r.status = 401 then ERROR_UNAUTHORIZED
          else if r.status = 403 then ERROR_FORBIDDEN
          else if r.status = 404 then ERROR_NOT_FOUND
          else if r.status = 500 then ERROR_SERVER
          else orFalsy r.detail ERROR_UNKNOWN
  | JsThrown.jsErr msg => msg
  | JsThrown.nonError => ERROR_UNKNOWN

/-- JavaScript double arithmetic restricted to the values the pipeline can
produce: exact rationals plus NaN, Infinity and -Infinity. -/
inductive JSNum where
  | num (q : ℚ)
  | nan
  | inf
  | negInf
deriving DecidableEq

/-- JavaScript subtraction on JSNum. -/
def JSNum.sub : JSNum → JSNum → JSNum
  | JSNum.num a, JSNum.num b => JSNum.num (a - b)
  | JSNum.nan, _ => JSNum.nan
  | _, JSNum.nan => JSNum.nan
  | JSNum.inf, JSNum.inf => JSNum.nan
  | JSNum.inf, _ => JSNum.inf
  | JSNum.negInf, JSNum.negInf => JSNum.nan
  | JSNum.negInf, _ => JSNum.negInf
  | JSNum.num _, JSNum.inf => JSNum.negInf
  | JSNum.num _, JSNum.negInf => JSNum.inf

/-- JavaScript division on JSNum: 0/0 is NaN, x/0 for x positive is
Infinity and for x negative is -Infinity. -/
def JSNum.div : JSNum → JSNum → JSNum
  | JSNum.num a, JSNum.num b =>
      if b = 0 then
        (if a = 0 then JSNum.nan else if 0 < a then JSNum.inf else JSNum.negInf)
      else JSNum.num (a / b)
  | JSNum.nan, _ => JSNum.nan
  | _, JSNum.nan => JSNum.nan
  | JSNum.inf, JSNum.inf => JSNum.nan
  | JSNum.inf, JSNum.negInf => JSNum.nan
  | JSNum.negInf, JSNum.inf => JSNum.nan
  | JSNum.negInf, JSNum.negInf => JSNum.nan
  | JSNum.inf, JSNum.num b => if b < 0 then JSNum.negInf else JSNum.inf
  | JSNum.negInf, JSNum.num b => if b < 0 then JSNum.inf else JSNum.negInf
  | JSNum.num _, JSNum.inf => JSNum.num 0
  | JSNum.num _, JSNum.negInf => JSNum.num 0

/-- JavaScript multiplication on JSNum: 0 times an infinity is NaN. -/
def JSNum.mul : JSNum → JSNum → JSNum
  | JSNum.num a, JSNum.num b => JSNum.num (a * b)
  | JSNum.nan, _ => JSNum.nan
  | _, JSNum.nan => JSNum.nan
  | JSNum.inf, JSNum.inf => JSNum.inf
  | JSNum.inf, JSNum.negInf => JSNum.negInf
  | JSNum.negInf, JSNum.inf => JSNum.negInf
  | JSNum.negInf, JSNum.negInf => JSNum.inf
  | JSNum.inf, JSNum.num b =>
      if b = 0 then JSNum.nan else if 0 < b then JSNum.inf else JSNum.negInf
  | JSNum.num a, JSNum.inf =>
      if a = 0 then JSNum.nan else if 0 < a then JSNum.inf else JSNum.negInf
  | JSNum.negInf, JSNum.num b =>
      if b = 0 then JSNum.nan else if 0 < b then JSNum.negInf else JSNum.inf
  | JSNum.num a, JSNum.negInf =>
      if a = 0 then JSNum.nan else if 0 < a then JSNum.negInf else JSNum.inf

/-- One executed trade, per the TradeRecord interface in types.ts. -/
structure TradeRecord where
  week : String
  strategy : String
  symbol : String
  action : String
  quantity : ℚ
  price : ℚ
  strike : Option ℚ
  cash_flow : ℚ
  notes : String
  timestamp : String
deriving DecidableEq

/-- A value stored under an open-ended summary key ((key: string): any in
types.ts): the rendering code only distinguishes numbers from non-numbers. -/
inductive SummaryValue where
  | num (q : ℚ)
  | str (s : String)
deriving DecidableEq

/-- StrategySummary from types.ts: the five required fields, plus the
open-ended additional entries as an association list in object-key order. -/
structure StrategySummary where
  total_trades : Nat
  initial_capital : ℚ
  final_capital : ℚ
  total_return : ℚ
  execution_time : ℚ
  extra : List (String × SummaryValue)
deriving DecidableEq

/-- StrategyResult from types.ts.  The optional error field is an Option:
none models an absent field, some "" an empty-string error. -/
structure StrategyResult where
  trades : List TradeRecord
  summary : StrategySummary
  strategy_name : String
  execution_time : ℚ
  error : Option String
deriving DecidableEq

/-- JavaScript truthiness of an optional string: absent (undefined) and the
empty string are falsy. -/
def truthy (o : Option String) : Bool :=
  match o with
  | none => false
  | some s => s ≠ ""

/-- The returnPercentage computation in SummaryMetrics.tsx lines 27-29,
including its initial_capital > 0 guard, carried out in JS arithmetic. -/
def returnPercentage (s : StrategySummary) : JSNum :=
  if 0 < s.initial_capital then
    JSNum.mul
      (JSNum.div
        (JSNum.sub (JSNum.num s.final_capital) (JSNum.num s.initial_capital))
        (JSNum.num s.initial_capital))
      (JSNum.num 100)
  else JSNum.num 0

/-- JavaScript key.includes(pat): pat occurs as a contiguous substring of
key (case-sensitive, as in the source). -/
def includesJS (key pat : String) : Bool :=
  decide (pat.toList <:+: key.toList)

/-- The percentage-style test in SummaryMetrics.tsx line 143:
key.includes of the three lowercase words rate, percentage, ratio. -/
def isPercentStyleKey (key : String) : Bool :=
  includesJS key "rate" || includesJS key "percentage" || includesJS key "ratio"

/-- The five summary keys skipped by the additional-metrics loop in
SummaryMetrics.tsx line 132. -/
def mainSummaryKeys : List String :=
  ["total_trades", "initial_capital", "final_capital", "total_return", "execution_time"]

/-- Which rendering branch an additional-metrics cell takes in
SummaryMetrics.tsx lines 141-147: percentage formatting, plain number
formatting, or String(value). -/
inductive MetricCell where
  | percentStyle (q : ℚ)
  | plainNumber (q : ℚ)
  | textForm (s : String)
deriving DecidableEq

/-- The per-entry additional-metrics rendering decision of
SummaryMetrics.tsx lines 130-151: skipped main keys yield none; numeric
values render percentage-style exactly when isPercentStyleKey holds;
non-numeric values render as their string form. -/
def additionalMetricCell (key : String) (v : SummaryValue) : Option MetricCell :=
  if key ∈ mainSummaryKeys then none
  else some (match v with
    | SummaryValue.num q =>
        if isPercentStyleKey key then MetricCell.percentStyle q else MetricCell.plainNumber q
    | SummaryValue.str s => MetricCell.textForm s)

/-- All additional-metric cells of a summary, in object-key order. -/
def additionalMetricCells (s : StrategySummary) : List (String × MetricCell) :=
  s.extra.filterMap (fun kv =>
    (additionalMetricCell kv.1 kv.2).map (fun c => (kv.1, c)))

/-- What the SummaryMetrics component renders: the early-return error card,
or the success card with its derived numbers. -/
inductive SummaryMetricsView where
  | errorCard (strategyName : String) (message : String)
  | successCard (strategyName : String) (initial finalCap pnl : ℚ) (retPct : JSNum)
      (totalTrades : Nat) (execTime : ℚ) (extras : List (String × MetricCell))
deriving DecidableEq

/-- SummaryMetrics.tsx: if (result.error) return the error card (the error
string rendered verbatim); otherwise read summary and compute the derived
metrics. -/
def summaryMetricsRender (r : StrategyResult) (strategyName : String) : SummaryMetricsView :=
  if truthy r.error then
    SummaryMetricsView.errorCard strategyName (r.error.getD "")
  else
    SummaryMetricsView.successCard strategyName
      r.summary.initial_capital
      r.summary.final_capital
      (r.summary.final_capital - r.summary.initial_capital)
      (returnPercentage r.summary)
      r.summary.total_trades
      r.summary.execution_time
      (additionalMetricCells r.summary)

/-- One row of the PerformanceChart comparison dataset
(TradesTable source, PerformanceChart component lines 248-275). -/
structure ComparisonRow where
  strategy : String
  returnAmount : ℚ
  returnPct : JSNum
  trades : Nat
  initialCapital : ℚ
  finalCapital : ℚ
deriving DecidableEq

/-- The row pushed for one successful strategy result: return amount by
plain subtraction, return percent by unguarded JS division. -/
def strategyComparisonRow (label : String) (r : StrategyResult) : ComparisonRow :=
  { strategy := label
    returnAmount := r.summary.final_capital - r.summary.initial_capital
    returnPct :=
      JSNum.mul
        (JSNum.div
          (JSNum.num (r.summary.final_capital - r.summary.initial_capital))
          (JSNum.num r.summary.initial_capital))
        (JSNum.num 100)
    trades := r.summary.total_trades
    initialCapital := r.summary.initial_capital
    finalCapital := r.summary.final_capital }

/-- The comparisonData array of PerformanceChart: a wheel row if
wheelResult is present and its error is falsy, then a rotator row under the
same condition. -/
def comparisonData (wheelResult rotatorResult : Option StrategyResult) : List ComparisonRow :=
  (match wheelResult with
   | some w => if truthy w.error then [] else [strategyComparisonRow "Options Wheel" w]
   | none => []) ++
  (match rotatorResult with
   | some r => if truthy r.error then [] else [strategyComparisonRow "Crypto Rotator" r]
   | none => [])

/-- What PerformanceChart renders: the explicit no-data card when
comparisonData is empty, otherwise the charts over the rows. -/
inductive PerformanceChartView where
  | noData
  | charts (rows : List ComparisonRow)
deriving DecidableEq

/-- PerformanceChart early return: comparisonData.length === 0 renders the
No data available card. -/
def performanceChartRender (wheelResult rotatorResult : Option StrategyResult) :
    PerformanceChartView :=
  if comparisonData wheelResult rotatorResult = [] then PerformanceChartView.noData
  else PerformanceChartView.charts (comparisonData wheelResult rotatorResult)

/-- What the TradesTable component is instantiated with: its empty state or
the table over the trades prop it received. -/
inductive TradesTableView where
  | noTrades (title : String)
  | table (title : String) (trades : List TradeRecord)
deriving DecidableEq

/-- TradesTable early return on trades.length === 0, else the table over
the received trades. -/
def tradesTableRender (title : String) (trades : List TradeRecord) : TradesTableView :=
  if trades = [] then TradesTableView.noTrades title
  else TradesTableView.table title trades

/-- The pair of children ResultsPanel renders for one present strategy
entry (part_000 lines 121-157): SummaryMetrics over the whole entry and
TradesTable over the entry's trades field, unconditionally. -/
def resultsPanelStrategySection (r : StrategyResult) (strategyName title : String) :
    SummaryMetricsView × TradesTableView :=
  (summaryMetricsRender r strategyName, tradesTableRender title r.trades)

/-- The sortable columns of TradesTable. -/
inductive SortField where
  | week
  | symbol
  | action
  | quantity
  | price
  | cash_flow
  | timestamp
deriving DecidableEq

/-- Sort direction of TradesTable. -/
inductive SortDirection where
  | asc
  | desc
deriving DecidableEq

/-- The aValue/bValue a comparator pass extracts: a string for week, symbol
and action; a number for quantity, price, cash_flow; and for timestamp the
number new Date(t.timestamp).getTime(), supplied by the valuation g. -/
inductive JsSortValue where
  | str (s : String)
  | num (q : ℚ)
deriving DecidableEq

/-- Field extraction of the TradesTable comparator (the switch in
sortedTrades, TradesTable.tsx lines 27-61). -/
def sortKey (g : String → ℚ) : SortField → TradeRecord → JsSortValue
  | SortField.week, t => JsSortValue.str t.week
  | SortField.symbol, t => JsSortValue.str t.symbol
  | SortField.action, t => JsSortValue.str t.action
  | SortField.quantity, t => JsSortValue.num t.quantity
  | SortField.price, t => JsSortValue.num t.price
  | SortField.cash_flow, t => JsSortValue.num t.cash_flow
  | SortField.timestamp, t => JsSortValue.num (g t.timestamp)

/-- String comparison as a signed number, modelling a.localeCompare(b):
negative when a precedes b, zero exactly on equal strings. -/
def strCmpQ (a b : String) : ℚ :=
  if a < b then -1 else if b < a then 1 else 0

/-- Comparator value for a pair of extracted sort values: localeCompare
for two strings, subtraction for two numbers.  A mixed pair cannot arise,
since a fixed field always extracts the same shape; it is mapped to 0. -/
def cmpKey : JsSortValue → JsSortValue → ℚ
  | JsSortValue.str a, JsSortValue.str b => strCmpQ a b
  | JsSortValue.num a, JsSortValue.num b => a - b
  | JsSortValue.str _, JsSortValue.num _ => 0
  | JsSortValue.num _, JsSortValue.str _ => 0

/-- The full TradesTable comparator: ascending compares a against b,
descending compares b against a (which negates the comparator value). -/
def tradeCmp (g : String → ℚ) (f : SortField) (d : SortDirection) (a b : TradeRecord) : ℚ :=
  match d with
  | SortDirection.asc => cmpKey (sortKey g f a) (sortKey g f b)
  | SortDirection.desc => cmpKey (sortKey g f b) (sortKey g f a)

/-- The comparator as a sorting relation: a precedes-or-ties b when the
comparator value is nonpositive. -/
abbrev tradeLe (g : String → ℚ) (f : SortField) (d : SortDirection) (a b : TradeRecord) : Prop :=
  tradeCmp g f d a b ≤ 0

/-- The sortedTrades computation of TradesTable: a stable sort of a copy of
the trades array by the comparator.  JavaScript Array.prototype.sort is
stable and the comparator is a total preorder, so the result coincides with
insertion sort by the same relation. -/
def sortedTrades (g : String → ℚ) (f : SortField) (d : SortDirection)
    (l : List TradeRecord) : List TradeRecord :=
  List.insertionSort (tradeLe g f d) l

/-- A trade whose week label is the numeric string 2. -/
def tradeWeek2 : TradeRecord :=
  { week := "2", strategy := "Wheel", symbol := "SPY", action := "SELL_PUT"
    quantity := 1, price := 5, strike := none, cash_flow := 5
    notes := "", timestamp := "2025-06-28T13:09:31Z" }

/-- A trade whose week label is the numeric string 10. -/
def tradeWeek10 : TradeRecord :=
  { week := "10", strategy := "Wheel", symbol := "QQQ", action := "SELL_CALL"
    quantity := 1, price := 7, strike := none, cash_flow := 7
    notes := "", timestamp := "2025-06-29T13:09:31Z" }

/-- A successful (no error field) strategy result whose summary has
initial_capital = 0. -/
def zeroCapitalResult : StrategyResult :=
  { trades := [], strategy_name := "wheel", execution_time := 1, error := none
    summary := { total_trades := 0, initial_capital := 0, final_capital := 0
                 total_return := 0, execution_time := 1, extra := [] } }

/-- An error strategy result carrying a nonempty error string and a
nonempty trades array. -/
def errResultA : StrategyResult :=
  { trades := [tradeWeek2], strategy_name := "wheel", execution_time := 1
    error := some "boom"
    summary := { total_trades := 1, initial_capital := 100, final_capital := 100
                 total_return := 0, execution_time := 1, extra := [] } }

/-- The same error strategy result with a different trades array. -/
def errResultB : StrategyResult :=
  { trades := [], strategy_name := "wheel", execution_time := 1
    error := some "boom"
    summary := { total_trades := 1, initial_capital := 100, final_capital := 100
                 total_return := 0, execution_time := 1, extra := [] } }

/-- A strategy result whose error field is present but equal to the empty
string. -/
def emptyErrResult : StrategyResult :=
  { trades := [], strategy_name := "wheel", execution_time := 1
    error := some ""
    summary := { total_trades := 3, initial_capital := 100, final_capital := 110
                 total_return := 10, execution_time := 1, extra := [] } }

/-- A successful strategy result with positive initial capital. -/
def okResult : StrategyResult :=
  { trades := [], strategy_name := "wheel", execution_time := 1
    error := none
    summary := { total_trades := 2, initial_capital := 100, final_capital := 110
                 total_return := 10, execution_time := 1, extra := [] } }

/-- Helper: applying a trace extended by one final event applies that event
to the state reached by the prefix. -/
theorem applyTrace_append_single {α : Type} (s : ApiState α) (es : List (ApiEvent α))
    (e : ApiEvent α) :
    applyTrace s (es ++ [e]) = applyEvent (applyTrace s es) e := by
  simp [applyTrace, List.foldl_append]

/-- C1, counterexample: with calls A then B overlapping and B settling
first (trace start A, start B, resolve B with 2, resolve A with 1), the
final controller state holds A's result 1, not B's result 2 — the claim
that the final state reflects the most recently initiated call's result is
false of the code, which has no generation counter. -/
theorem c1_counterexample :
    applyTrace (initialApiState : ApiState ℤ)
        [ApiEvent.start, ApiEvent.start, ApiEvent.resolve 2, ApiEvent.resolve 1]
      = { data := some 1, loading := false, error := none } ∧
    some (1 : ℤ) ≠ some (2 : ℤ) :=
  ⟨rfl, by decide⟩

/-- C1, amended: results are applied in settlement order and every
settlement overwrites the state, so the final state reflects whichever call
settles last (last-completed-wins).  In particular, for overlapping calls A
then B with B resolving first then A, the final state holds A's result. -/
theorem c1_last_completed_wins (α : Type) :
    (∀ (s : ApiState α) (es : List (ApiEvent α)) (r : α),
        applyTrace s (es ++ [ApiEvent.resolve r])
          = { applyTrace s es with data := some r, loading := false }) ∧
    (∀ a b : α,
        applyTrace initialApiState
            [ApiEvent.start, ApiEvent.start, ApiEvent.resolve b, ApiEvent.resolve a]
          = { data := some a, loading := false, error := none }) := by
  constructor
  · intro s es r
    rw [applyTrace_append_single]
    rfl
  · intro a b
    rfl

/-- C2, counterexample: start a call, reset, then let the in-flight call
resolve with 7 — the final state holds data = some 7, so the result is not
discarded and the state does not stay at the reset value. -/
theorem c2_counterexample :
    applyTrace (initialApiState : ApiState ℤ)
        [ApiEvent.start, ApiEvent.reset, ApiEvent.resolve 7]
      = { data := some 7, loading := false, error := none } ∧
    some (7 : ℤ) ≠ (none : Option ℤ) :=
  ⟨rfl, by decide⟩

/-- C2, amended: reset() does set the state to data null, loading false,
error null; but there is no generation counter, so an in-flight call that
resolves after the reset writes its result into the state. -/
theorem c2_reset_then_late_resolve (α : Type) :
    (∀ s : ApiState α,
        applyEvent s ApiEvent.reset = { data := none, loading := false, error := none }) ∧
    (∀ (s : ApiState α) (r : α),
        applyEvent s (ApiEvent.resolve r) = { s with data := some r, loading := false }) ∧
    (∀ r : α,
        applyTrace initialApiState [ApiEvent.start, ApiEvent.reset, ApiEvent.resolve r]
          = { data := some r, loading := false, error := none }) :=
  ⟨fun _ => rfl, fun _ _ => rfl, fun _ => rfl⟩

/-- C10: a failing execute call (start then reject) leaves data unchanged,
setting only the error and clearing loading; starting a call clears the
error and keeps the data; and no event other than reset can turn a present
data value into null. -/
theorem c10_failure_frame (α : Type) :
    (∀ (s : ApiState α) (m : String),
        applyTrace s [ApiEvent.start, ApiEvent.reject m]
          = { data := s.data, loading := false, error := some m }) ∧
    (∀ s : ApiState α,
        applyEvent s ApiEvent.start = { data := s.data, loading := true, error := none }) ∧
    (∀ (s : ApiState α) (e : ApiEvent α), e ≠ ApiEvent.reset →
        (applyEvent s e).data = none → s.data = none) := by
  refine ⟨fun _ _ => rfl, fun _ => rfl, ?_⟩
  intro s e hne h
  cases e with
  | start => exact h
  | resolve r => exact absurd h (by simp [applyEvent])
  | reject m => exact h
  | reset => exact absurd rfl hne

/-- C10, witness: instantiating the frame theorem at the initial state and
a start event. -/
theorem c10_failure_frame_witness :
    (ApiEvent.start : ApiEvent ℤ) ≠ ApiEvent.reset ∧
    (initialApiState : ApiState ℤ).data = none :=
  ⟨by decide, (c10_failure_frame ℤ).2.2 initialApiState ApiEvent.start (by decide) rfl⟩

/-- C5, counterexample: inside execute, a network-level AxiosError with no
response is mapped to its raw transport message, so two such failures with
different transport messages map to different strings, and neither is the
stable network message of the constants module — the mapping is not a
distinct, stable message. -/
theorem c5_counterexample :
    executeErrorMessage (JsThrown.axiosErr none "Network Error") = "Network Error" ∧
    executeErrorMessage (JsThrown.axiosErr none "timeout of 10000ms exceeded")
      = "timeout of 10000ms exceeded" ∧
    ("Network Error" : String) ≠ "timeout of 10000ms exceeded" ∧
    ("Network Error" : String) ≠ ERROR_NETWORK :=
  ⟨rfl, rfl, by decide, by decide⟩

/-- C5, amended: execute converts a failure to a string by the priority
detail (when present and nonempty), then the raw error message, then the
fixed unknown-error string; a network-level failure with no response is
mapped to the raw transport message.  The distinct stable network message
is produced only by apiService's handleApiError, which execute does not
use. -/
theorem c5_error_message_priority :
    (∀ (resp : Option AxiosResponse) (msg d : String),
        resp.bind (fun r => r.detail) = some d → d ≠ "" →
        executeErrorMessage (JsThrown.axiosErr resp msg) = d) ∧
    (∀ (resp : Option AxiosResponse) (msg : String),
        (resp.bind (fun r => r.detail) = none ∨ resp.bind (fun r => r.detail) = some "") →
        executeErrorMessage (JsThrown.axiosErr resp msg) = msg) ∧
    (∀ msg : String, executeErrorMessage (JsThrown.jsErr msg) = msg) ∧
    executeErrorMessage JsThrown.nonError = "An unknown error occurred" ∧
    (∀ msg : String, executeErrorMessage (JsThrown.axiosErr none msg) = msg) ∧
    (∀ msg : String, handleApiError (JsThrown.axiosErr none msg) = ERROR_NETWORK) := by
  refine ⟨?_, ?_, fun _ => rfl, rfl, fun _ => rfl, fun _ => rfl⟩
  · intro resp msg d hd hne
    simp [executeErrorMessage, hd, orFalsy, hne]
  · intro resp msg hd
    rcases hd with h | h <;> simp [executeErrorMessage, h, orFalsy]

/-- C5, witness: a 400-style failure whose payload carries a nonempty
detail maps to that detail. -/
theorem c5_error_message_priority_witness :
    (some (AxiosResponse.mk 400 (some "Invalid date"))).bind (fun r => r.detail)
      = some "Invalid date" ∧
    ("Invalid date" : String) ≠ "" ∧
    executeErrorMessage
        (JsThrown.axiosErr (some (AxiosResponse.mk 400 (some "Invalid date"))) "Request failed")
      = "Invalid date" :=
  ⟨rfl, by decide,
    c5_error_message_priority.1 (some (AxiosResponse.mk 400 (some "Invalid date")))
      "Request failed" "Invalid date" rfl (by decide)⟩

/-- Helper: the code's substring test agrees with list-infix occurrence. -/
theorem includesJS_iff (key pat : String) :
    includesJS key pat = true ↔ pat.toList <:+: key.toList := by
  simp [includesJS]

/-- Helper: the percentage-style flag holds exactly when one of the three
lowercase words occurs verbatim in the key. -/
theorem isPercentStyleKey_iff (key : String) :
    isPercentStyleKey key = true ↔
      ("rate".toList <:+: key.toList ∨ "percentage".toList <:+: key.toList ∨
        "ratio".toList <:+: key.toList) := by
  simp [isPercentStyleKey, includesJS, Bool.or_eq_true, or_assoc]

/-- C3: the per-strategy summary metrics guard the zero-capital case and
always produce the finite value pnl / initialCapital * 100 (or 0), but the
comparison chart builder divides without the guard: on a successful view
with initial_capital = 0 it produces NaN for the return percent, violating
the never-NaN/Infinity property the specification states. -/
theorem c3_return_percent_guard_mismatch :
    (∀ s : StrategySummary,
        returnPercentage s
          = JSNum.num (if 0 < s.initial_capital
              then (s.final_capital - s.initial_capital) / s.initial_capital * 100
              else 0)) ∧
    (strategyComparisonRow "Options Wheel" zeroCapitalResult).returnPct = JSNum.nan ∧
    comparisonData (some zeroCapitalResult) none
      = [{ strategy := "Options Wheel", returnAmount := 0, returnPct := JSNum.nan
           trades := 0, initialCapital := 0, finalCapital := 0 }] := by
  refine ⟨?_, ?_, ?_⟩
  · intro s
    by_cases h : 0 < s.initial_capital
    · have hne : s.initial_capital ≠ 0 := ne_of_gt h
      simp [returnPercentage, h, JSNum.sub, JSNum.div, JSNum.mul, hne]
    · simp [returnPercentage, h]
  · norm_num [strategyComparisonRow, zeroCapitalResult, JSNum.div, JSNum.mul]
  · norm_num [comparisonData, truthy, strategyComparisonRow, zeroCapitalResult,
      JSNum.div, JSNum.mul]

/-- C4, counterexample: two strategy entries carrying the same nonempty
error and the same summary but different trades arrays produce different
ResultsPanel sections — ResultsPanel passes the entry's trades to the
trades table even for an error entry, so a consumer does read the trades
field of an error entry. -/
theorem c4_counterexample :
    errResultA.error = some "boom" ∧
    errResultB.error = some "boom" ∧
    errResultA.summary = errResultB.summary ∧
    resultsPanelStrategySection errResultA "Wheel" "Wheel Strategy Trades"
      ≠ resultsPanelStrategySection errResultB "Wheel" "Wheel Strategy Trades" := by
  exact ⟨rfl, rfl, rfl, by decide⟩

/-- C4, amended: for an entry whose error string is nonempty, SummaryMetrics
renders the error verbatim as an error card and its output is independent of
the entry's trades and summary, and the comparison chart builder likewise
ignores the entry; ResultsPanel, however, still passes the entry's trades
field to the trades table. -/
theorem c4_error_view_isolation (r : StrategyResult) (nm e : String) :
    r.error = some e → e ≠ "" →
    summaryMetricsRender r nm = SummaryMetricsView.errorCard nm e ∧
    (∀ (tr : List TradeRecord) (su : StrategySummary),
        summaryMetricsRender { r with trades := tr, summary := su } nm
          = SummaryMetricsView.errorCard nm e) ∧
    (∀ (tr : List TradeRecord) (su : StrategySummary) (rot : Option StrategyResult),
        comparisonData (some { r with trades := tr, summary := su }) rot
          = comparisonData (some r) rot) ∧
    (∀ (tr : List TradeRecord) (su : StrategySummary) (nm2 ttl : String),
        resultsPanelStrategySection { r with trades := tr, summary := su } nm2 ttl
          = (SummaryMetricsView.errorCard nm2 e, tradesTableRender ttl tr)) := by
  intro he hne
  refine ⟨?_, ?_, ?_, ?_⟩
  · simp [summaryMetricsRender, truthy, he, hne]
  · intro tr su
    simp [summaryMetricsRender, truthy, he, hne]
  · intro tr su rot
    simp [comparisonData, truthy, he, hne]
  · intro tr su nm2 ttl
    simp [resultsPanelStrategySection, summaryMetricsRender, truthy, he, hne]

/-- C4, witness: instantiating the isolation theorem at the concrete error
entry errResultA. -/
theorem c4_error_view_isolation_witness :
    errResultA.error = some "boom" ∧ ("boom" : String) ≠ "" ∧
    summaryMetricsRender errResultA "Wheel" = SummaryMetricsView.errorCard "Wheel" "boom" :=
  ⟨rfl, by decide, (c4_error_view_isolation errResultA "Wheel" "boom" rfl (by decide)).1⟩

/-- C8, counterexample: the key Rate contains rate only up to case; the
code's case-sensitive test does not flag it, and the numeric entry under
that key renders as a plain number, not percentage-style as the
case-insensitive claim requires. -/
theorem c8_counterexample :
    isPercentStyleKey "Rate" = false ∧
    isPercentStyleKey "rate" = true ∧
    additionalMetricCell "Rate" (SummaryValue.num 5) = some (MetricCell.plainNumber 5) ∧
    additionalMetricCell "rate" (SummaryValue.num 5) = some (MetricCell.percentStyle 5) := by
  exact ⟨by decide, by decide, by decide, by decide⟩

/-- C8, amended: for an additional-metrics key (not one of the five main
summary keys), percentage-style rendering is selected exactly when the key
contains the lowercase substring rate, percentage, or ratio verbatim
(case-sensitive); other numeric entries render as plain numbers and
non-numeric entries as their string form. -/
theorem c8_percent_flag_case_sensitive :
    (∀ (key : String) (q : ℚ), key ∉ mainSummaryKeys →
        (additionalMetricCell key (SummaryValue.num q) = some (MetricCell.percentStyle q) ↔
          ("rate".toList <:+: key.toList ∨ "percentage".toList <:+: key.toList ∨
            "ratio".toList <:+: key.toList))) ∧
    (∀ (key : String) (q : ℚ), key ∉ mainSummaryKeys →
        ¬ ("rate".toList <:+: key.toList ∨ "percentage".toList <:+: key.toList ∨
            "ratio".toList <:+: key.toList) →
        additionalMetricCell key (SummaryValue.num q) = some (MetricCell.plainNumber q)) ∧
    (∀ (key s : String), key ∉ mainSummaryKeys →
        additionalMetricCell key (SummaryValue.str s) = some (MetricCell.textForm s)) := by
  have hfalse : ∀ key : String, ¬ isPercentStyleKey key = true → isPercentStyleKey key = false := by
    intro key hp
    cases hb : isPercentStyleKey key
    · rfl
    · exact absurd hb hp
  refine ⟨?_, ?_, ?_⟩
  · intro key q hk
    constructor
    · intro hcell
      by_cases hp : isPercentStyleKey key = true
      · exact (isPercentStyleKey_iff key).mp hp
      · exfalso
        have hplain : additionalMetricCell key (SummaryValue.num q)
            = some (MetricCell.plainNumber q) := by
          simp [additionalMetricCell, hk, hfalse key hp]
        rw [hplain] at hcell
        exact MetricCell.noConfusion (Option.some.inj hcell)
    · intro hforms
      have hp : isPercentStyleKey key = true := (isPercentStyleKey_iff key).mpr hforms
      simp [additionalMetricCell, hk, hp]
  · intro key q hk hforms
    have hp : ¬ isPercentStyleKey key = true := fun hp =>
      hforms ((isPercentStyleKey_iff key).mp hp)
    simp [additionalMetricCell, hk, hfalse key hp]
  · intro key s hk
    simp [additionalMetricCell, hk]

/-- C8, witness: the key win_rate is flagged for percentage-style
rendering. -/
theorem c8_percent_flag_case_sensitive_witness :
    ("win_rate" : String) ∉ mainSummaryKeys ∧
    additionalMetricCell "win_rate" (SummaryValue.num 55) = some (MetricCell.percentStyle 55) :=
  ⟨by decide,
    (c8_percent_flag_case_sensitive.1 "win_rate" 55 (by decide)).mpr (Or.inl (by decide))⟩

/-- C9, counterexample: a view whose error field is present but equal to
the empty string still contributes a comparison row — the code excludes a
view only when its error is truthy, so this error-carrying view is not
excluded as the claim requires. -/
theorem c9_counterexample :
    emptyErrResult.error = some "" ∧
    comparisonData (some emptyErrResult) none
      = [strategyComparisonRow "Options Wheel" emptyErrResult] ∧
    comparisonData (some emptyErrResult) none ≠ [] := by
  refine ⟨rfl, ?_, ?_⟩
  · simp [comparisonData, truthy, emptyErrResult]
  · simp [comparisonData, truthy, emptyErrResult]

/-- C9, amended: the comparison dataset holds exactly one row per present
view whose error field is absent (or, by the code's truthiness test, equal
to the empty string), carrying that view's return amount, unguarded JS
return percent, and trade count; a view with a nonempty error contributes
no row; and the chart renders the explicit no-data state exactly when the
dataset is empty. -/
theorem c9_comparison_rows :
    (∀ (v : StrategyResult) (rot : Option StrategyResult), v.error = none →
        comparisonData (some v) rot
          = strategyComparisonRow "Options Wheel" v :: comparisonData none rot) ∧
    (∀ (v : StrategyResult) (rot : Option StrategyResult) (e : String),
        v.error = some e → e ≠ "" →
        comparisonData (some v) rot = comparisonData none rot) ∧
    (∀ (v : StrategyResult) (w : Option StrategyResult), v.error = none →
        comparisonData w (some v)
          = comparisonData w none ++ [strategyComparisonRow "Crypto Rotator" v]) ∧
    (∀ (v : StrategyResult) (w : Option StrategyResult) (e : String),
        v.error = some e → e ≠ "" →
        comparisonData w (some v) = comparisonData w none) ∧
    comparisonData none none = [] ∧
    (∀ v : StrategyResult,
        (strategyComparisonRow "Options Wheel" v).returnAmount
            = v.summary.final_capital - v.summary.initial_capital ∧
        (strategyComparisonRow "Options Wheel" v).trades = v.summary.total_trades ∧
        (strategyComparisonRow "Options Wheel" v).returnPct
            = JSNum.mul
                (JSNum.div
                  (JSNum.num (v.summary.final_capital - v.summary.initial_capital))
                  (JSNum.num v.summary.initial_capital))
                (JSNum.num 100)) ∧
    (∀ (w rot : Option StrategyResult),
        performanceChartRender w rot = PerformanceChartView.noData ↔
          comparisonData w rot = []) := by
  refine ⟨?_, ?_, ?_, ?_, rfl, fun v => ⟨rfl, rfl, rfl⟩, ?_⟩
  · intro v rot hv
    simp [comparisonData, truthy, hv]
  · intro v rot e hv hne
    simp [comparisonData, truthy, hv, hne]
  · intro v w hv
    simp [comparisonData, truthy, hv]
  · intro v w e hv hne
    simp [comparisonData, truthy, hv, hne]
  · intro w rot
    by_cases h : comparisonData w rot = []
    · simp [performanceChartRender, h]
    · simp [performanceChartRender, h]

/-- C9, witness: a successful view contributes exactly its one row. -/
theorem c9_comparison_rows_witness :
    okResult.error = none ∧
    comparisonData (some okResult) none = [strategyComparisonRow "Options Wheel" okResult] :=
  ⟨rfl, (c9_comparison_rows.1 okResult none rfl).trans rfl⟩

/-- Helper: the string comparator is nonpositive exactly when the first
string is at most the second. -/
theorem strCmpQ_nonpos (a b : String) : strCmpQ a b ≤ 0 ↔ a ≤ b := by
  unfold strCmpQ
  split_ifs with h1 h2
  · norm_num [le_of_lt h1]
  · norm_num [not_le.mpr h2]
  · norm_num [not_lt.mp h2]

/-- Helper: swapping the arguments of the string comparator negates it. -/
theorem strCmpQ_swap (a b : String) : strCmpQ b a = -strCmpQ a b := by
  rcases lt_trichotomy a b with h | h | h
  · simp [strCmpQ, h, asymm h]
  · subst h
    simp [strCmpQ, lt_irrefl]
  · simp [strCmpQ, h, asymm h]

/-- Helper: a sort value ties with itself. -/
theorem cmpKey_self (v : JsSortValue) : cmpKey v v = 0 := by
  cases v with
  | str a => simp [cmpKey, strCmpQ, lt_irrefl]
  | num a => simp [cmpKey]

/-- Helper: swapping the arguments of the pair comparator negates it. -/
theorem cmpKey_swap (v w : JsSortValue) : cmpKey w v = -cmpKey v w := by
  cases v with
  | str a =>
      cases w with
      | str b => simpa [cmpKey] using strCmpQ_swap a b
      | num b => simp [cmpKey]
  | num a =>
      cases w with
      | str b => simp [cmpKey]
      | num b => simp [cmpKey, neg_sub]

/-- Helper: swapping the trades negates the full comparator, for every
field and direction. -/
theorem tradeCmp_swap (g : String → ℚ) (f : SortField) (d : SortDirection)
    (a b : TradeRecord) : tradeCmp g f d b a = -tradeCmp g f d a b := by
  cases d with
  | asc => exact cmpKey_swap (sortKey g f a) (sortKey g f b)
  | desc => exact cmpKey_swap (sortKey g f b) (sortKey g f a)

/-- Helper: the comparator relation is total. -/
theorem tradeLe_total (g : String → ℚ) (f : SortField) (d : SortDirection) :
    ∀ a b : TradeRecord, tradeLe g f d a b ∨ tradeLe g f d b a := by
  intro a b
  rcases le_total (tradeCmp g f d a b) 0 with h | h
  · exact Or.inl h
  · refine Or.inr ?_
    show tradeCmp g f d b a ≤ 0
    rw [tradeCmp_swap]
    linarith

/-- Helper: the comparator relation is transitive, for every field and
direction (each field extracts values of a single shape, so the comparator
is a linear preorder on that shape). -/
theorem tradeLe_trans (g : String → ℚ) (f : SortField) (d : SortDirection) :
    ∀ a b c : TradeRecord, tradeLe g f d a b → tradeLe g f d b c → tradeLe g f d a c := by
  intro a b c hab hbc
  unfold tradeLe tradeCmp at hab hbc ⊢
  cases d <;> cases f <;>
    simp only [sortKey, cmpKey] at hab hbc ⊢ <;>
    first
      | (rw [strCmpQ_nonpos] at hab hbc ⊢
         first
           | exact le_trans hab hbc
           | exact le_trans hbc hab)
      | linarith

/-- Helper: trades with equal extracted sort values tie under the
comparator, in both directions. -/
theorem tradeLe_of_sortKey_eq (g : String → ℚ) (f : SortField) (d : SortDirection)
    {a b : TradeRecord} (h : sortKey g f a = sortKey g f b) : tradeLe g f d a b := by
  show tradeCmp g f d a b ≤ 0
  cases d with
  | asc =>
      show cmpKey (sortKey g f a) (sortKey g f b) ≤ 0
      rw [h, cmpKey_self]
  | desc =>
      show cmpKey (sortKey g f b) (sortKey g f a) ≤ 0
      rw [h, cmpKey_self]

/-- C6, counterexample: the week labels 2 and 10 both parse as numbers and
2 is numerically below 10, yet the ascending week sort places the trade
labeled 10 first — week values are compared as strings, not numerically. -/
theorem c6_counterexample :
    tradeWeek2.week = "2" ∧ tradeWeek10.week = "10" ∧ ((2 : ℚ) < 10) ∧
    sortedTrades (fun _ => 0) SortField.week SortDirection.asc [tradeWeek2, tradeWeek10]
      = [tradeWeek10, tradeWeek2] ∧
    tradeWeek10 ≠ tradeWeek2 := by
  have hlt : ¬ tradeLe (fun _ => (0 : ℚ)) SortField.week SortDirection.asc
      tradeWeek2 tradeWeek10 := by
    show ¬ (strCmpQ "2" "10" ≤ 0)
    rw [strCmpQ_nonpos, String.le_iff_toList_le]
    decide
  refine ⟨rfl, rfl, by norm_num, ?_, by decide⟩
  simp [sortedTrades, List.insertionSort, List.orderedInsert, hlt]

/-- C6, amended: the week sort always compares week values as opaque string
labels (locale string comparison), even when both parse as numbers: the
ascending week sort is a permutation of the input that is sorted by the
string order on the week field. -/
theorem c6_week_sorted_as_strings (g : String → ℚ) (l : List TradeRecord) :
    (sortedTrades g SortField.week SortDirection.asc l).Pairwise
        (fun a b => a.week ≤ b.week) ∧
    (sortedTrades g SortField.week SortDirection.asc l).Perm l := by
  constructor
  · haveI : IsTotal TradeRecord (tradeLe g SortField.week SortDirection.asc) :=
      ⟨tradeLe_total g SortField.week SortDirection.asc⟩
    haveI : IsTrans TradeRecord (tradeLe g SortField.week SortDirection.asc) :=
      ⟨tradeLe_trans g SortField.week SortDirection.asc⟩
    have hs := List.sorted_insertionSort (tradeLe g SortField.week SortDirection.asc) l
    refine List.Pairwise.imp ?_ hs
    intro a b hab
    have h2 : strCmpQ a.week b.week ≤ 0 := hab
    exact (strCmpQ_nonpos a.week b.week).mp h2
  · exact List.perm_insertionSort (tradeLe g SortField.week SortDirection.asc) l

/-- C7: the trade sort is stable for every field, direction and timestamp
valuation: restricting the sorted output to the trades whose extracted
sort value equals any given value yields exactly the corresponding
restriction of the input, in the input's order; and the output is a
permutation of the input. -/
theorem c7_sort_stable (g : String → ℚ) (l : List TradeRecord) (f : SortField)
    (d : SortDirection) (v : JsSortValue) :
    (sortedTrades g f d l).filter (fun t => decide (sortKey g f t = v))
      = l.filter (fun t => decide (sortKey g f t = v)) ∧
    (sortedTrades g f d l).Perm l := by
  constructor
  · have hpair : (l.filter (fun t => decide (sortKey g f t = v))).Pairwise (tradeLe g f d) := by
      refine List.pairwise_of_forall_mem_list ?_
      intro a ha b hb
      have ha2 : sortKey g f a = v := by simpa using List.of_mem_filter ha
      have hb2 : sortKey g f b = v := by simpa using List.of_mem_filter hb
      exact tradeLe_of_sortKey_eq g f d (ha2.trans hb2.symm)
    have hsub : List.Sublist (l.filter (fun t => decide (sortKey g f t = v)))
        (sortedTrades g f d l) :=
      List.sublist_insertionSort hpair (List.filter_sublist l)
    have hsub2 : List.Sublist (l.filter (fun t => decide (sortKey g f t = v)))
        ((sortedTrades g f d l).filter (fun t => decide (sortKey g f t = v))) := by
      have h2 := hsub.filter (fun t => decide (sortKey g f t = v))
      simpa using h2
    have hperm : ((sortedTrades g f d l).filter (fun t => decide (sortKey g f t = v))).Perm
        (l.filter (fun t => decide (sortKey g f t = v))) :=
      (List.perm_insertionSort (tradeLe g f d) l).filter (fun t => decide (sortKey g f t = v))
    exact (hsub2.eq_of_length hperm.length_eq.symm).symm
  · exact List.perm_insertionSort (tradeLe g f d) l
